import Mathlib

/-!
Verification of the VCM Dashboard calculation engine.

The source program (src/App.tsx and its variant src/unnamed/part_000)
computes Venture Capital Method valuation metrics inside two memoized
blocks, `results` and `sensitivityData`, plus a display helper
`formatCurrency`.  We embed the engine shallowly in two numeric models:

* an exact-arithmetic model over the rationals, used for the algebraic and
  functional claims (JavaScript doubles are idealized as exact rationals;
  note that in Lean division of rationals by zero yields 0);
* an extended model `FP` = rationals plus signed infinity plus NaN, with
  the IEEE-754 special-value rules for each operation (rounding idealized
  away, zero treated as unsigned), used for the claims about
  division-by-zero behaviour and NaN results.

Field and function names follow the source: `ricaviY5` is year5Revenue,
`ricaviUnita` is revenueUnitScale, `multiplo` is exitMultiple,
`discountRate` is discountRatePercent, `anni` is yearsToExit,
`investimento` is investmentAmount, `investUnita` is investmentUnitScale,
`settore` is sector.  `results` is computeResults and `sensitivityData`
is computeSensitivity (with the fixed grid baked in, as in the source).
-/

/-- CurrencyUnit enum values from src (types.ts): MILLIONS, THOUSANDS, ONES. -/
def CurrencyUnit.MILLIONS : ℚ := 1000000

/-- CurrencyUnit THOUSANDS value. -/
def CurrencyUnit.THOUSANDS : ℚ := 1000

/-- CurrencyUnit ONES value. -/
def CurrencyUnit.ONES : ℚ := 1

/-- VCMState from types.ts: the input parameter set.  The unit fields hold
the numeric enum values; `anni` comes from an integer slider, and the spec
types yearsToExit as a positive integer, so it is a natural number here. -/
structure VCMState where
  ricaviY5 : ℚ
  ricaviUnita : ℚ
  multiplo : ℚ
  discountRate : ℚ
  anni : ℕ
  investimento : ℚ
  investUnita : ℚ
  settore : String
deriving DecidableEq, Repr

/-- VCMResults from types.ts: the seven derived fields. -/
structure VCMResults where
  exitValue : ℚ
  valuationToday : ℚ
  preMoneyVal : ℚ
  vcOwnership : ℚ
  roiAtteso : ℚ
  profitto : ℚ
  powerFactor : ℚ
deriving DecidableEq, Repr

/-- SensitivityData from types.ts: one point of the sensitivity sweep. -/
structure SensitivityData where
  dr : String
  valuation : ℚ
deriving DecidableEq, Repr

/-- Rounding to the nearest integer, half toward positive infinity: the
tie-breaking rule of the ECMAScript toFixed algorithm, which picks the
larger candidate when two integers are equally near. -/
def jsRound (x : ℚ) : ℤ := ⌊x + 1 / 2⌋

/-- Model of the ECMAScript Number.prototype.toFixed(0) applied to an exact
rational: a negative argument is rendered as a minus sign followed by the
rendering of its negation; a nonnegative argument is rounded to the nearest
integer, half up, and printed in decimal. -/
def jsToFixed0 (x : ℚ) : String :=
  if x < 0 then "-" ++ toString (jsRound (-x)) else toString (jsRound x)

/-- Rendering of a nonnegative rational with exactly one decimal digit,
rounding half up, as Number.prototype.toFixed(1) does for nonnegative
arguments. -/
def jsToFixed1Abs (x : ℚ) : String :=
  let n := (jsRound (x * 10)).toNat
  toString (n / 10) ++ "." ++ toString (n % 10)

/-- Model of Number.prototype.toFixed(1) on an exact rational. -/
def jsToFixed1 (x : ℚ) : String :=
  if x < 0 then "-" ++ jsToFixed1Abs (-x) else jsToFixed1Abs x

/-- The `results` useMemo block of src/App.tsx lines 60 to 91 (identical in
src/unnamed/part_000 lines 53 to 65), transcribed over exact rationals.
Math.pow with the natural-number year count is the monoid power. -/
def results (state : VCMState) : VCMResults :=
  let ricaviTotal := state.ricaviY5 * state.ricaviUnita
  let investTotal := state.investimento * state.investUnita
  let dr := state.discountRate / 100
  let exitValue := ricaviTotal * state.multiplo
  let powerFactor := (1 + dr) ^ state.anni
  let valuationToday := exitValue / powerFactor
  let preMoneyVal := valuationToday - investTotal
  let vcOwnership := investTotal / valuationToday
  let roiAtteso := (exitValue * vcOwnership) / investTotal
  let profitto := (exitValue * vcOwnership) - investTotal
  ⟨exitValue, valuationToday, preMoneyVal, vcOwnership, roiAtteso, profitto, powerFactor⟩

/-- The fixed discount-rate grid of the sensitivity sweep,
src/App.tsx line 97. -/
def drRates : List ℚ := [0.2, 0.3, 0.4, 0.5, 0.6, 0.7]

/-- The `sensitivityData` useMemo block of src/App.tsx lines 94 to 103
(identical in src/unnamed/part_000 lines 67 to 74): for each grid rate,
a label from toFixed(0) of the rate times 100, and the exit value
discounted at that rate, divided by one million. -/
def sensitivityData (state : VCMState) : List SensitivityData :=
  let ricaviTotal := state.ricaviY5 * state.ricaviUnita
  let exitValue := ricaviTotal * state.multiplo
  drRates.map fun dr =>
    ⟨jsToFixed0 (dr * 100) ++ "%", (exitValue / (1 + dr) ^ state.anni) / 1000000⟩

/-- formatCurrency from src/App.tsx lines 105 to 110. -/
def formatCurrency (value : ℚ) : String :=
  let absValue := |value|
  if absValue ≥ 1000000 then "€" ++ jsToFixed1 (value / 1000000) ++ "M"
  else if absValue ≥ 1000 then "€" ++ jsToFixed1 (value / 1000) ++ "k"
  else "€" ++ jsToFixed0 value

/-- The initial state of the dashboard, src/App.tsx lines 48 to 57: used
below as a concrete evaluation point. -/
def defaultState : VCMState :=
  ⟨50, CurrencyUnit.MILLIONS, 6, 45, 5, 10, CurrencyUnit.MILLIONS, "SaaS"⟩

/-- C1: for every input, computeResults returns exactly the seven fields of
the section 3 formulas in dependency order: exitValue is revenue times its
unit scale times the multiple; powerFactor is (1 + rate/100)^years;
valuationToday is exitValue over powerFactor; preMoney subtracts the scaled
investment; ownership divides the scaled investment by valuationToday; ROI
and profit combine exitValue, ownership and the scaled investment.  Each
unit scale appears exactly once and never in the dimensionless fields. -/
theorem claim_C1_formulas (s : VCMState) :
    results s =
      ⟨(s.ricaviY5 * s.ricaviUnita) * s.multiplo,
       ((s.ricaviY5 * s.ricaviUnita) * s.multiplo) /
         (1 + s.discountRate / 100) ^ s.anni,
       ((s.ricaviY5 * s.ricaviUnita) * s.multiplo) /
         (1 + s.discountRate / 100) ^ s.anni -
         s.investimento * s.investUnita,
       (s.investimento * s.investUnita) /
         (((s.ricaviY5 * s.ricaviUnita) * s.multiplo) /
           (1 + s.discountRate / 100) ^ s.anni),
       (((s.ricaviY5 * s.ricaviUnita) * s.multiplo) *
         ((s.investimento * s.investUnita) /
           (((s.ricaviY5 * s.ricaviUnita) * s.multiplo) /
             (1 + s.discountRate / 100) ^ s.anni))) /
         (s.investimento * s.investUnita),
       (((s.ricaviY5 * s.ricaviUnita) * s.multiplo) *
         ((s.investimento * s.investUnita) /
           (((s.ricaviY5 * s.ricaviUnita) * s.multiplo) /
             (1 + s.discountRate / 100) ^ s.anni))) -
         s.investimento * s.investUnita,
       (1 + s.discountRate / 100) ^ s.anni⟩ := rfl

/-- C2: for every input, the sensitivity sweep returns exactly six points,
one per grid rate in ascending order, labelled with the whole-number
percent string, whose valuation is the exit value discounted at the grid
rate and divided by one million, with no internal rounding. -/
theorem claim_C2_sweep (s : VCMState) :
    sensitivityData s =
      [⟨"20%", (((s.ricaviY5 * s.ricaviUnita) * s.multiplo) /
          (1 + 0.2) ^ s.anni) / 1000000⟩,
       ⟨"30%", (((s.ricaviY5 * s.ricaviUnita) * s.multiplo) /
          (1 + 0.3) ^ s.anni) / 1000000⟩,
       ⟨"40%", (((s.ricaviY5 * s.ricaviUnita) * s.multiplo) /
          (1 + 0.4) ^ s.anni) / 1000000⟩,
       ⟨"50%", (((s.ricaviY5 * s.ricaviUnita) * s.multiplo) /
          (1 + 0.5) ^ s.anni) / 1000000⟩,
       ⟨"60%", (((s.ricaviY5 * s.ricaviUnita) * s.multiplo) /
          (1 + 0.6) ^ s.anni) / 1000000⟩,
       ⟨"70%", (((s.ricaviY5 * s.ricaviUnita) * s.multiplo) /
          (1 + 0.7) ^ s.anni) / 1000000⟩] ∧
    List.Chain' (· < ·) drRates := by
  refine ⟨?_, by norm_num [drRates, List.chain'_cons]⟩
  simp only [sensitivityData, drRates, List.map, jsToFixed0, jsRound]
  norm_num
  exact ⟨rfl, rfl, rfl, rfl, rfl, rfl⟩

/-- The dashboard state with the slider moved to a grid rate of 40 percent:
a concrete evaluation point for the sweep agreement claim. -/
def vcState40 : VCMState :=
  ⟨50, CurrencyUnit.MILLIONS, 6, 40, 5, 10, CurrencyUnit.MILLIONS, "SaaS"⟩

/-- C3: when the current discount rate equals 100 times a grid rate r, the
sweep contains the point for r whose valuation is exactly computeResults
valuationToday divided by one million (the two computations agree with zero
error in exact arithmetic), and the sweep has one point per grid entry with
the grid in strictly ascending order. -/
theorem claim_C3_agreement (s : VCMState) (r : ℚ) (hr : r ∈ drRates)
    (hd : s.discountRate = 100 * r) :
    (sensitivityData s).length = drRates.length ∧
    List.Chain' (· < ·) drRates ∧
    SensitivityData.mk (jsToFixed0 (r * 100) ++ "%")
      ((results s).valuationToday / 1000000) ∈ sensitivityData s := by
  refine ⟨by simp [sensitivityData], by norm_num [drRates, List.chain'_cons], ?_⟩
  have hvt : (results s).valuationToday =
      s.ricaviY5 * s.ricaviUnita * s.multiplo / (1 + r) ^ s.anni := by
    show s.ricaviY5 * s.ricaviUnita * s.multiplo /
        (1 + s.discountRate / 100) ^ s.anni = _
    rw [hd, mul_div_cancel_left₀ r (by norm_num : (100:ℚ) ≠ 0)]
  rw [hvt]
  exact List.mem_map_of_mem _ hr

/-- C3 witness: the agreement theorem applied at the dashboard state with
discount rate 40, a member of the grid. -/
theorem claim_C3_agreement_witness :
    (sensitivityData vcState40).length = drRates.length ∧
    List.Chain' (· < ·) drRates ∧
    SensitivityData.mk (jsToFixed0 ((0.4:ℚ) * 100) ++ "%")
      ((results vcState40).valuationToday / 1000000) ∈ sensitivityData vcState40 :=
  claim_C3_agreement vcState40 0.4 (by norm_num [drRates])
    (by show (40:ℚ) = 100 * 0.4; norm_num)

/-- Zero-revenue input: every discounted valuation is zero. -/
def cs4a : VCMState :=
  ⟨0, CurrencyUnit.MILLIONS, 6, 45, 5, 10, CurrencyUnit.MILLIONS, "SaaS"⟩

/-- The same zero-revenue input with a strictly larger discount rate. -/
def cs4b : VCMState :=
  ⟨0, CurrencyUnit.MILLIONS, 6, 46, 5, 10, CurrencyUnit.MILLIONS, "SaaS"⟩

/-- C4 counterexample: two inputs identical except for a strictly larger
discount rate in the second, whose valuationToday is NOT strictly smaller:
with zero revenue both valuations are zero. -/
theorem claim_C4_counterexample :
    cs4b = { cs4a with discountRate := 46 } ∧
    cs4a.discountRate < cs4b.discountRate ∧
    ¬ (results cs4b).valuationToday < (results cs4a).valuationToday := by
  refine ⟨rfl, by norm_num [cs4a, cs4b], ?_⟩
  have ha : (results cs4a).valuationToday = 0 := by
    norm_num [results, cs4a]
  have hb : (results cs4b).valuationToday = 0 := by
    norm_num [results, cs4b]
  rw [ha, hb]
  exact lt_irrefl 0

/-- C4 as amended: when the exit value is strictly positive, the horizon is
at least one year and the rates are nonnegative, a strictly larger discount
rate gives a strictly smaller valuationToday; and when the scaled investment
is strictly positive, a strictly larger ownership fraction. -/
theorem claim_C4_amended (s : VCMState) (d₁ d₂ : ℚ) (h0 : 0 ≤ d₁) (h12 : d₁ < d₂)
    (hE : 0 < s.ricaviY5 * s.ricaviUnita * s.multiplo) (hn : s.anni ≠ 0) :
    (results { s with discountRate := d₂ }).valuationToday <
      (results { s with discountRate := d₁ }).valuationToday ∧
    (0 < s.investimento * s.investUnita →
      (results { s with discountRate := d₁ }).vcOwnership <
        (results { s with discountRate := d₂ }).vcOwnership) := by
  have hb1 : (0:ℚ) < 1 + d₁ / 100 := by
    have := div_nonneg h0 (by norm_num : (0:ℚ) ≤ 100)
    linarith
  have hb2 : (0:ℚ) < 1 + d₂ / 100 := by
    have : d₁ / 100 < d₂ / 100 := by linarith
    linarith
  have hblt : 1 + d₁ / 100 < 1 + d₂ / 100 := by
    have : d₁ / 100 < d₂ / 100 := by linarith
    linarith
  have hpow : (1 + d₁ / 100) ^ s.anni < (1 + d₂ / 100) ^ s.anni :=
    pow_lt_pow_left₀ hblt (le_of_lt hb1) hn
  have hpow1 : 0 < (1 + d₁ / 100) ^ s.anni := pow_pos hb1 _
  have hpow2 : 0 < (1 + d₂ / 100) ^ s.anni := pow_pos hb2 _
  have hv2 : (results { s with discountRate := d₂ }).valuationToday =
      s.ricaviY5 * s.ricaviUnita * s.multiplo / (1 + d₂ / 100) ^ s.anni := rfl
  have hv1 : (results { s with discountRate := d₁ }).valuationToday =
      s.ricaviY5 * s.ricaviUnita * s.multiplo / (1 + d₁ / 100) ^ s.anni := rfl
  have hvlt : (results { s with discountRate := d₂ }).valuationToday <
      (results { s with discountRate := d₁ }).valuationToday := by
    rw [hv1, hv2]
    exact div_lt_div_of_pos_left hE hpow1 hpow
  refine ⟨hvlt, fun hi => ?_⟩
  have hv2pos : 0 < (results { s with discountRate := d₂ }).valuationToday := by
    rw [hv2]
    exact div_pos hE hpow2
  have ho1 : (results { s with discountRate := d₁ }).vcOwnership =
      s.investimento * s.investUnita /
        (results { s with discountRate := d₁ }).valuationToday := rfl
  have ho2 : (results { s with discountRate := d₂ }).vcOwnership =
      s.investimento * s.investUnita /
        (results { s with discountRate := d₂ }).valuationToday := rfl
  rw [ho1, ho2]
  exact div_lt_div_of_pos_left hi hv2pos hvlt

/-- C4 witness: the amended monotonicity applied to the dashboard default
state at rates 45 and 46. -/
theorem claim_C4_amended_witness :
    (results { defaultState with discountRate := 46 }).valuationToday <
      (results { defaultState with discountRate := 45 }).valuationToday ∧
    (0 < defaultState.investimento * defaultState.investUnita →
      (results { defaultState with discountRate := 45 }).vcOwnership <
        (results { defaultState with discountRate := 46 }).vcOwnership) :=
  claim_C4_amended defaultState 45 46 (by norm_num) (by norm_num)
    (by norm_num [defaultState, CurrencyUnit.MILLIONS])
    (by norm_num [defaultState])

/-- Negative projected revenue: the exit value is negative, and discounting
moves the valuation toward zero, hence above the exit value. -/
def cs5 : VCMState :=
  ⟨-1, CurrencyUnit.ONES, 1, 100, 1, 0, CurrencyUnit.ONES, "SaaS"⟩

/-- C5 counterexample: an input with discountPowerFactor equal to 2 (so at
least 1) whose valuationToday, minus one half, is strictly greater than its
exitValue, minus one: the claimed inequality fails for negative exit
values. -/
theorem claim_C5_counterexample :
    1 ≤ (results cs5).powerFactor ∧
    ¬ (results cs5).valuationToday ≤ (results cs5).exitValue := by
  constructor
  · norm_num [results, cs5, CurrencyUnit.ONES]
  · norm_num [results, cs5, CurrencyUnit.ONES]

/-- C5 as amended: when discountPowerFactor is at least 1 AND the exit value
is nonnegative, valuationToday is at most exitValue; and when revenue, its
unit scale and the multiple are all nonnegative, exitValue is
nonnegative. -/
theorem claim_C5_amended (s : VCMState) :
    (1 ≤ (results s).powerFactor → 0 ≤ s.ricaviY5 * s.ricaviUnita * s.multiplo →
      (results s).valuationToday ≤ (results s).exitValue) ∧
    (0 ≤ s.ricaviY5 → 0 ≤ s.ricaviUnita → 0 ≤ s.multiplo →
      0 ≤ (results s).exitValue) := by
  constructor
  · intro hpf hE
    have h1 : (results s).valuationToday =
        (results s).exitValue / (results s).powerFactor := rfl
    rw [h1]
    exact div_le_self hE hpf
  · intro h1 h2 h3
    have h : (results s).exitValue = s.ricaviY5 * s.ricaviUnita * s.multiplo := rfl
    rw [h]
    exact mul_nonneg (mul_nonneg h1 h2) h3

/-- C5 witness: the amended bound applied at the dashboard default state. -/
theorem claim_C5_amended_witness :
    ((1 ≤ (results defaultState).powerFactor →
      0 ≤ defaultState.ricaviY5 * defaultState.ricaviUnita * defaultState.multiplo →
      (results defaultState).valuationToday ≤ (results defaultState).exitValue) ∧
    (0 ≤ defaultState.ricaviY5 → 0 ≤ defaultState.ricaviUnita →
      0 ≤ defaultState.multiplo → 0 ≤ (results defaultState).exitValue)) ∧
    (results defaultState).valuationToday ≤ (results defaultState).exitValue := by
  refine ⟨claim_C5_amended defaultState, ?_⟩
  exact (claim_C5_amended defaultState).1
    (by norm_num [results, defaultState, CurrencyUnit.MILLIONS])
    (by norm_num [defaultState, CurrencyUnit.MILLIONS])

/-- The default dashboard state with the sector label changed: the label
must not influence any computed value. -/
def cs6b : VCMState :=
  ⟨50, CurrencyUnit.MILLIONS, 6, 45, 5, 10, CurrencyUnit.MILLIONS, "Fintech"⟩

/-- C6: both computations are deterministic and stateless: the outputs are
fully determined by the numeric input fields (two states agreeing on them,
even with different sector labels, give identical outputs; in particular
identical inputs always give identical outputs, and no hidden state is read
or written). -/
theorem claim_C6_deterministic (s₁ s₂ : VCMState)
    (h1 : s₁.ricaviY5 = s₂.ricaviY5) (h2 : s₁.ricaviUnita = s₂.ricaviUnita)
    (h3 : s₁.multiplo = s₂.multiplo) (h4 : s₁.discountRate = s₂.discountRate)
    (h5 : s₁.anni = s₂.anni) (h6 : s₁.investimento = s₂.investimento)
    (h7 : s₁.investUnita = s₂.investUnita) :
    results s₁ = results s₂ ∧ sensitivityData s₁ = sensitivityData s₂ := by
  constructor
  · simp only [results, h1, h2, h3, h4, h5, h6, h7]
  · simp only [sensitivityData, h1, h2, h3, h5]

/-- C6 witness: the determinism theorem applied to the default state and the
same numbers under a different sector label. -/
theorem claim_C6_deterministic_witness :
    results defaultState = results cs6b ∧
    sensitivityData defaultState = sensitivityData cs6b :=
  claim_C6_deterministic defaultState cs6b rfl rfl rfl rfl rfl rfl rfl

/-- C10: whenever the scaled investment and the computed valuationToday are
nonzero, expectedROIMultiple collapses to discountPowerFactor, that is, to
(1 + rate/100)^years: the investment and exit terms cancel, so the ROI
output is independent of revenue, unit scales, the multiple, and the
investment amount. -/
theorem claim_C10_roi (s : VCMState)
    (hi : s.investimento * s.investUnita ≠ 0)
    (hv : (results s).valuationToday ≠ 0) :
    (results s).roiAtteso = (results s).powerFactor ∧
    (results s).roiAtteso = (1 + s.discountRate / 100) ^ s.anni := by
  have hvt : (results s).valuationToday =
      s.ricaviY5 * s.ricaviUnita * s.multiplo /
        (1 + s.discountRate / 100) ^ s.anni := rfl
  have hroi : (results s).roiAtteso =
      (s.ricaviY5 * s.ricaviUnita * s.multiplo *
        (s.investimento * s.investUnita /
          (s.ricaviY5 * s.ricaviUnita * s.multiplo /
            (1 + s.discountRate / 100) ^ s.anni))) /
        (s.investimento * s.investUnita) := rfl
  have hpf : (1 + s.discountRate / 100) ^ s.anni ≠ 0 := by
    intro h
    apply hv
    rw [hvt, h, div_zero]
  have hE : s.ricaviY5 * s.ricaviUnita * s.multiplo ≠ 0 := by
    intro h
    apply hv
    rw [hvt, h, zero_div]
  have main : (results s).roiAtteso = (1 + s.discountRate / 100) ^ s.anni := by
    rw [hroi]
    field_simp
    ring
  exact ⟨main, main⟩

/-- C10 witness: the ROI collapse at the dashboard default state. -/
theorem claim_C10_roi_witness :
    (results defaultState).roiAtteso = (results defaultState).powerFactor ∧
    (results defaultState).roiAtteso =
      (1 + defaultState.discountRate / 100) ^ defaultState.anni :=
  claim_C10_roi defaultState
    (by norm_num [defaultState, CurrencyUnit.MILLIONS])
    (by norm_num [results, defaultState, CurrencyUnit.MILLIONS])

/-- Extended numeric values: an exact rational, a signed infinity, or NaN.
This idealizes an IEEE-754 double by dropping rounding (finite values are
exact rationals) and the sign of zero, while keeping the special values and
their propagation rules, which is what the division-by-zero and NaN claims
are about. -/
inductive FP where
  | fin (q : ℚ)
  | inf (pos : Bool)
  | nan
deriving DecidableEq, Repr

/-- IEEE negation on extended values. -/
def FP.neg : FP → FP
  | fin q => fin (-q)
  | inf b => inf (!b)
  | nan => nan

/-- IEEE addition on extended values: NaN propagates, infinities of equal
sign absorb, opposite infinities give NaN. -/
def FP.add : FP → FP → FP
  | nan, _ => nan
  | _, nan => nan
  | inf b, inf c => if b = c then inf b else nan
  | inf b, fin _ => inf b
  | fin _, inf c => inf c
  | fin a, fin b => fin (a + b)

/-- IEEE subtraction on extended values. -/
def FP.sub (x y : FP) : FP := FP.add x (FP.neg y)

/-- IEEE multiplication on extended values: NaN propagates, infinity times
zero is NaN, otherwise infinities keep the product sign. -/
def FP.mul : FP → FP → FP
  | nan, _ => nan
  | _, nan => nan
  | inf b, inf c => if b = c then inf true else inf false
  | inf b, fin q => if q = 0 then nan else if 0 < q then inf b else inf (!b)
  | fin q, inf c => if q = 0 then nan else if 0 < q then inf c else inf (!c)
  | fin a, fin b => fin (a * b)

/-- IEEE division on extended values: NaN propagates, infinity over infinity
is NaN, a finite value over infinity is zero, zero over zero is NaN, a
nonzero finite value over zero is a signed infinity (zero counts as
positive), and the finite case is exact rational division. -/
def FP.div : FP → FP → FP
  | nan, _ => nan
  | _, nan => nan
  | inf _, inf _ => nan
  | inf b, fin q => if 0 ≤ q then inf b else inf (!b)
  | fin _, inf _ => fin 0
  | fin a, fin b =>
      if b = 0 then
        (if a = 0 then nan else if 0 < a then inf true else inf false)
      else fin (a / b)

/-- IEEE power with a natural exponent: any base to the zero is one (as
Math.pow specifies, even for NaN), NaN propagates for positive exponents,
positive infinity stays, negative infinity follows the parity of the
exponent, and finite bases give the exact rational power. -/
def FP.pow : FP → ℕ → FP
  | _, 0 => fin 1
  | fin q, n => fin (q ^ n)
  | inf b, n => if b then inf true else if n % 2 = 0 then inf true else inf false
  | nan, _ => nan

/-- The input parameter set with extended-value numeric fields. -/
structure VCMStateE where
  ricaviY5 : FP
  ricaviUnita : FP
  multiplo : FP
  discountRate : FP
  anni : ℕ
  investimento : FP
  investUnita : FP
  settore : String
deriving DecidableEq, Repr

/-- The seven derived fields over extended values. -/
structure VCMResultsE where
  exitValue : FP
  valuationToday : FP
  preMoneyVal : FP
  vcOwnership : FP
  roiAtteso : FP
  profitto : FP
  powerFactor : FP
deriving DecidableEq, Repr

/-- A sensitivity point over extended values. -/
structure SensitivityDataE where
  dr : String
  valuation : FP
deriving DecidableEq, Repr

/-- The `results` useMemo block transcribed over extended values, operation
for operation as in src/App.tsx lines 60 to 91. -/
def resultsE (state : VCMStateE) : VCMResultsE :=
  let ricaviTotal := FP.mul state.ricaviY5 state.ricaviUnita
  let investTotal := FP.mul state.investimento state.investUnita
  let dr := FP.div state.discountRate (FP.fin 100)
  let exitValue := FP.mul ricaviTotal state.multiplo
  let powerFactor := FP.pow (FP.add (FP.fin 1) dr) state.anni
  let valuationToday := FP.div exitValue powerFactor
  let preMoneyVal := FP.sub valuationToday investTotal
  let vcOwnership := FP.div investTotal valuationToday
  let roiAtteso := FP.div (FP.mul exitValue vcOwnership) investTotal
  let profitto := FP.sub (FP.mul exitValue vcOwnership) investTotal
  ⟨exitValue, valuationToday, preMoneyVal, vcOwnership, roiAtteso, profitto, powerFactor⟩

/-- The `sensitivityData` useMemo block transcribed over extended values
(src/App.tsx lines 94 to 103); the grid rates are exact literals. -/
def sensitivityDataE (state : VCMStateE) : List SensitivityDataE :=
  let ricaviTotal := FP.mul state.ricaviY5 state.ricaviUnita
  let exitValue := FP.mul ricaviTotal state.multiplo
  drRates.map fun dr =>
    ⟨jsToFixed0 (dr * 100) ++ "%",
     FP.div (FP.div exitValue (FP.pow (FP.add (FP.fin 1) (FP.fin dr)) state.anni))
       (FP.fin 1000000)⟩

/-- Division by finite zero never returns a finite value: it is NaN or a
signed infinity. -/
theorem FP.div_fin_zero_not_fin (x : FP) (q : ℚ) : FP.div x (FP.fin 0) ≠ FP.fin q := by
  cases x with
  | fin a =>
    by_cases ha : a = 0
    · subst ha
      simp [FP.div]
    · by_cases ha2 : 0 < a
      · simp [FP.div, ha, ha2]
      · simp [FP.div, ha, ha2]
  | inf b => simp [FP.div]
  | nan => simp [FP.div]

/-- Zero divided by anything is zero or NaN. -/
theorem FP.zero_div_eq (x : FP) :
    FP.div (FP.fin 0) x = FP.fin 0 ∨ FP.div (FP.fin 0) x = FP.nan := by
  cases x with
  | fin b =>
    by_cases hb : b = 0
    · subst hb
      simp [FP.div]
    · left
      simp [FP.div, hb]
  | inf b => left; rfl
  | nan => right; rfl

/-- Anything times finite zero is zero or NaN. -/
theorem FP.mul_fin_zero_eq (e : FP) :
    FP.mul e (FP.fin 0) = FP.fin 0 ∨ FP.mul e (FP.fin 0) = FP.nan := by
  cases e with
  | fin q => left; simp [FP.mul]
  | inf b => right; simp [FP.mul]
  | nan => right; rfl

/-- Anything times NaN is NaN. -/
theorem FP.mul_nan_eq (e : FP) : FP.mul e FP.nan = FP.nan := by
  cases e <;> rfl

/-- Division of anything by finite one is the identity. -/
theorem FP.div_fin_one (x : FP) : FP.div x (FP.fin 1) = x := by
  cases x with
  | fin a => norm_num [FP.div]
  | inf b => norm_num [FP.div]
  | nan => rfl

/-- Any base to the power zero is finite one. -/
theorem FP.pow_zero_eq (x : FP) : FP.pow x 0 = FP.fin 1 := by
  cases x <;> rfl

/-- C7: the engine is total over extended values: for every input, including
degenerate ones, the sweep still returns its full six points and
computeResults returns a record; when a division by zero occurs (a zero
valuationToday feeding the ownership quotient) the affected field is a
special value, infinity or NaN, never an error and never a finite
number. -/
theorem claim_C7_total (s : VCMStateE) :
    (sensitivityDataE s).length = 6 ∧
    ((resultsE s).valuationToday = FP.fin 0 →
      ∀ q : ℚ, (resultsE s).vcOwnership ≠ FP.fin q) := by
  constructor
  · rfl
  · intro h q
    have hw : (resultsE s).vcOwnership =
        FP.div (FP.mul s.investimento s.investUnita) ((resultsE s).valuationToday) := rfl
    rw [hw, h]
    exact FP.div_fin_zero_not_fin _ q

/-- Zero projected revenue with a positive investment: valuationToday is
finite zero, so the ownership division is a division by zero. -/
def csE7 : VCMStateE :=
  ⟨FP.fin 0, FP.fin 1000000, FP.fin 6, FP.fin 45, 5, FP.fin 10, FP.fin 1000000, "SaaS"⟩

/-- C7 witness: at the zero-revenue input the sweep still has six points and
the ownership field is not the finite value zero (it is a special value). -/
theorem claim_C7_total_witness :
    (sensitivityDataE csE7).length = 6 ∧ (resultsE csE7).vcOwnership ≠ FP.fin 0 :=
  ⟨(claim_C7_total csE7).1,
   (claim_C7_total csE7).2
     (by norm_num [resultsE, csE7, FP.mul, FP.add, FP.div, FP.pow]) 0⟩

/-- Zero revenue and zero investment: ownership becomes zero divided by
zero. -/
def csE8 : VCMStateE :=
  ⟨FP.fin 0, FP.fin 1000000, FP.fin 6, FP.fin 45, 5, FP.fin 0, FP.fin 1000000, "SaaS"⟩

/-- C8 counterexample: an input with investmentAmount zero whose
vcOwnershipFraction is NaN, not zero: zero investment divided by the zero
valuationToday arising from zero revenue is NaN under IEEE semantics, so
the claimed unconditional vcOwnershipFraction = 0 fails. -/
theorem claim_C8_counterexample :
    csE8.investimento = FP.fin 0 ∧
    (resultsE csE8).vcOwnership = FP.nan ∧
    (resultsE csE8).vcOwnership ≠ FP.fin 0 := by
  have h : (resultsE csE8).vcOwnership = FP.nan := by
    norm_num [resultsE, csE8, FP.mul, FP.add, FP.div, FP.pow]
  refine ⟨rfl, h, ?_⟩
  rw [h]
  simp

/-- C8 as amended: with a finite unit scale and investmentAmount zero, the
ROI field is NaN (undefined-signaled), and the ownership fraction is zero
provided valuationToday is a nonzero finite value (when valuationToday is
zero the ownership is NaN, as the counterexample shows); and with
yearsToExit zero the power factor is one and valuationToday equals
exitValue, for every input. -/
theorem claim_C8_amended (s : VCMStateE) :
    ((∃ u : ℚ, s.investUnita = FP.fin u) → s.investimento = FP.fin 0 →
      (resultsE s).roiAtteso = FP.nan ∧
      (∀ v : ℚ, v ≠ 0 → (resultsE s).valuationToday = FP.fin v →
        (resultsE s).vcOwnership = FP.fin 0)) ∧
    (s.anni = 0 → (resultsE s).powerFactor = FP.fin 1 ∧
      (resultsE s).valuationToday = (resultsE s).exitValue) := by
  constructor
  · rintro ⟨u, hu⟩ hi
    have hInv : FP.mul s.investimento s.investUnita = FP.fin 0 := by
      rw [hi, hu]
      simp [FP.mul]
    constructor
    · have hroi : (resultsE s).roiAtteso =
          FP.div (FP.mul ((resultsE s).exitValue) ((resultsE s).vcOwnership))
            (FP.mul s.investimento s.investUnita) := rfl
      have hown : (resultsE s).vcOwnership =
          FP.div (FP.mul s.investimento s.investUnita)
            ((resultsE s).valuationToday) := rfl
      rw [hroi, hown, hInv]
      rcases FP.zero_div_eq ((resultsE s).valuationToday) with h1 | h1 <;> rw [h1]
      · rcases FP.mul_fin_zero_eq ((resultsE s).exitValue) with h2 | h2 <;>
          rw [h2] <;> simp [FP.div]
      · rw [FP.mul_nan_eq]
        rfl
    · intro v hv hval
      have hown : (resultsE s).vcOwnership =
          FP.div (FP.mul s.investimento s.investUnita)
            ((resultsE s).valuationToday) := rfl
      rw [hown, hInv, hval]
      simp [FP.div, hv]
  · intro h0
    have hpf : (resultsE s).powerFactor =
        FP.pow (FP.add (FP.fin 1) (FP.div s.discountRate (FP.fin 100))) s.anni := rfl
    have h1 : (resultsE s).powerFactor = FP.fin 1 := by
      rw [hpf, h0]
      exact FP.pow_zero_eq _
    refine ⟨h1, ?_⟩
    have hval : (resultsE s).valuationToday =
        FP.div ((resultsE s).exitValue) ((resultsE s).powerFactor) := rfl
    rw [hval, h1]
    exact FP.div_fin_one _

/-- Zero investment with positive revenue and an immediate exit (zero years
to exit): exercises both boundary branches of the amended claim. -/
def csE8w : VCMStateE :=
  ⟨FP.fin 50, FP.fin 1000000, FP.fin 6, FP.fin 45, 0, FP.fin 0, FP.fin 1000000, "SaaS"⟩

/-- C8 witness: at the concrete boundary input the ROI is NaN, the ownership
is finite zero, the power factor is one and valuationToday equals
exitValue. -/
theorem claim_C8_amended_witness :
    (resultsE csE8w).roiAtteso = FP.nan ∧
    (resultsE csE8w).vcOwnership = FP.fin 0 ∧
    (resultsE csE8w).powerFactor = FP.fin 1 ∧
    (resultsE csE8w).valuationToday = (resultsE csE8w).exitValue := by
  have h1 := (claim_C8_amended csE8w).1 ⟨1000000, rfl⟩ rfl
  have h2 := (claim_C8_amended csE8w).2 rfl
  refine ⟨h1.1, ?_, h2.1, h2.2⟩
  refine h1.2 300000000 (by norm_num) ?_
  norm_num [resultsE, csE8w, FP.mul, FP.add, FP.div, FP.pow]

/-- C9: the currency formatter branches exactly at one million and one
thousand on the absolute value: at or above one million it renders the value
divided by one million with one decimal and an M suffix, else at or above
one thousand divided by one thousand with one decimal and a k suffix, else
the value rounded to an integer; concretely 1500000 renders as the 1.5M
style, 2500 as the 2.5k style, 42 as the 42 style, and the thresholds
1000000 and 1000 fall in the upper branches. -/
theorem claim_C9_format (v : ℚ) :
    (1000000 ≤ |v| → formatCurrency v = "€" ++ jsToFixed1 (v / 1000000) ++ "M") ∧
    (|v| < 1000000 → 1000 ≤ |v| → formatCurrency v = "€" ++ jsToFixed1 (v / 1000) ++ "k") ∧
    (|v| < 1000 → formatCurrency v = "€" ++ jsToFixed0 v) ∧
    formatCurrency 1500000 = "€1.5M" ∧
    formatCurrency 2500 = "€2.5k" ∧
    formatCurrency 42 = "€42" ∧
    formatCurrency 1000000 = "€1.0M" ∧
    formatCurrency 1000 = "€1.0k" ∧
    formatCurrency 999 = "€999" := by
  refine ⟨?_, ?_, ?_, ?_, ?_, ?_, ?_, ?_, ?_⟩
  · intro h
    simp only [formatCurrency]
    rw [if_pos h]
  · intro h1 h2
    simp only [formatCurrency]
    rw [if_neg (not_le.mpr h1), if_pos h2]
  · intro h
    simp only [formatCurrency]
    rw [if_neg (not_le.mpr (lt_trans h (by norm_num))), if_neg (not_le.mpr h)]
  · norm_num [formatCurrency, jsToFixed1, jsToFixed1Abs, jsRound]
    rfl
  · norm_num [formatCurrency, jsToFixed1, jsToFixed1Abs, jsRound]
    rfl
  · norm_num [formatCurrency, jsToFixed0, jsRound]
    rfl
  · norm_num [formatCurrency, jsToFixed1, jsToFixed1Abs, jsRound]
    rfl
  · norm_num [formatCurrency, jsToFixed1, jsToFixed1Abs, jsRound]
    rfl
  · norm_num [formatCurrency, jsToFixed0, jsRound]
    rfl

/-- C9 witness: the general million branch applied at 1500000, with its
threshold hypothesis discharged. -/
theorem claim_C9_format_witness :
    1000000 ≤ |(1500000:ℚ)| ∧
    formatCurrency 1500000 = "€" ++ jsToFixed1 ((1500000:ℚ) / 1000000) ++ "M" :=
  ⟨by norm_num, (claim_C9_format 1500000).1 (by norm_num)⟩

/-- Finite times finite is the exact rational product. -/
theorem FP.mul_fin (a b : ℚ) : FP.mul (FP.fin a) (FP.fin b) = FP.fin (a * b) := rfl

/-- Finite plus finite is the exact rational sum. -/
theorem FP.add_fin (a b : ℚ) : FP.add (FP.fin a) (FP.fin b) = FP.fin (a + b) := rfl

/-- Finite minus finite is the exact rational difference. -/
theorem FP.sub_fin (a b : ℚ) : FP.sub (FP.fin a) (FP.fin b) = FP.fin (a - b) := by
  simp [FP.sub, FP.add, FP.neg, sub_eq_add_neg]

/-- Finite over nonzero finite is the exact rational quotient. -/
theorem FP.div_fin (a b : ℚ) (hb : b ≠ 0) :
    FP.div (FP.fin a) (FP.fin b) = FP.fin (a / b) := by
  simp [FP.div, hb]

/-- A finite base to any natural power is the exact rational power. -/
theorem FP.pow_fin (q : ℚ) (n : ℕ) : FP.pow (FP.fin q) n = FP.fin (q ^ n) := by
  cases n <;> simp [FP.pow]

/-- On finite inputs where no division degenerates (nonzero power factor,
valuation and scaled investment), the extended-value engine agrees field by
field with the exact-rational engine: the two embeddings describe the same
computation away from the special values. -/
theorem resultsE_agrees (s : VCMState)
    (hpf : (1 + s.discountRate / 100) ^ s.anni ≠ 0)
    (hv : (results s).valuationToday ≠ 0)
    (hi : s.investimento * s.investUnita ≠ 0) :
    resultsE ⟨FP.fin s.ricaviY5, FP.fin s.ricaviUnita, FP.fin s.multiplo,
      FP.fin s.discountRate, s.anni, FP.fin s.investimento, FP.fin s.investUnita,
      s.settore⟩ =
    ⟨FP.fin (results s).exitValue, FP.fin (results s).valuationToday,
     FP.fin (results s).preMoneyVal, FP.fin (results s).vcOwnership,
     FP.fin (results s).roiAtteso, FP.fin (results s).profitto,
     FP.fin (results s).powerFactor⟩ := by
  have h100 : (100:ℚ) ≠ 0 := by norm_num
  have hvq : s.ricaviY5 * s.ricaviUnita * s.multiplo /
      (1 + s.discountRate / 100) ^ s.anni ≠ 0 := hv
  simp only [resultsE, results, FP.mul_fin, FP.add_fin, FP.pow_fin,
    FP.div_fin _ _ h100, FP.div_fin _ _ hpf, FP.div_fin _ _ hvq,
    FP.div_fin _ _ hi, FP.sub_fin]
